import Mathlib

set_option maxHeartbeats 1000000

namespace LandingZone

/-! Shallow embedding of the aws-landing-zone orchestration code:
the CloudFormation helper in src/utils/cloudformation.py, the Organizations
helper in src/utils/org_helper.py, and the launch/cleanup orchestration in
src/org_cli.py.  Remote AWS endpoints are modelled as explicit environments
of response functions; each Python helper method becomes a Lean function
over such an environment, returning the value the Python code returns or
the exception it raises, together with a trace of the remote operations it
issued where a claim needs one. -/

/-- Exceptions the Python code can raise or propagate: botocore ClientError
and WaiterError, plain Exception, TimeoutError, AttributeError (a method
name that does not resolve on a class), KeyError (a missing dict key) and
ValueError. Each carries the message or name the Python code attaches. -/
inductive PyError where
  | clientError (msg : String)
  | waiterError (msg : String)
  | exn (msg : String)
  | timeoutError (msg : String)
  | attributeError (attr : String)
  | keyError (key : String)
  | valueError (msg : String)
deriving Repr, DecidableEq

/-- Leading-match test on character lists: the first list read in order is an
initial segment of the second. -/
def charsLeading : List Char → List Char → Bool
  | [], _ => true
  | _ :: _, [] => false
  | a :: as, b :: bs => a == b && charsLeading as bs

/-- Containment of a pattern anywhere inside a text, on character lists. -/
def charsWithin (pat : List Char) : List Char → Bool
  | [] => charsLeading pat []
  | b :: bs => charsLeading pat (b :: bs) || charsWithin pat bs

/-- The Python substring test: strContains s pat models the Python
expression pat in s, used by deploy_stack on stringified ClientErrors. -/
def strContains (s pat : String) : Bool := charsWithin pat.toList s.toList

/-- Python str.lower for the ASCII operation names UPDATE and CREATE. -/
def pyLower (s : String) : String := String.mk (s.data.map Char.toLower)

/-! ## CloudFormation helper (src/utils/cloudformation.py) -/

/-- The response dict of create_stack and update_stack; only the StackId
entry is read by the code. -/
structure CfnResponse where
  StackId : String
deriving Repr, DecidableEq

/-- The element describe_stacks(StackName=stack_id) returns at Stacks[0],
kept opaque: the code fetches and returns it without inspecting it. -/
structure StackDescription where
  raw : String
deriving Repr, DecidableEq

/-- Behaviour of the remote CloudFormation endpoint: each field is one
boto3 client operation, returning the response or the message of the
ClientError (for waiter_wait: WaiterError) it raises.  waiter_wait takes
the waiter name and the stack id; describe_stacks, like the other client
calls, can raise a ClientError. -/
structure CfnEnv where
  update_stack : String → String → Except String CfnResponse
  create_stack : String → String → Except String CfnResponse
  waiter_wait : String → String → Except String Unit
  describe_stacks : String → Except String StackDescription

/-- Remote CloudFormation calls issued by deploy_stack, in order. -/
inductive CfnCall where
  | updateStackCall (stackName templateBody : String)
  | createStackCall (stackName templateBody : String)
  | waiterWaitCall (waiterName stackId : String)
  | describeStacksCall (stackId : String)
deriving Repr, DecidableEq

/-- What deploy_stack returns on success: either the short dict
StackId/Status NO_UPDATES_NEEDED built inline, or the full stack details
fetched by _get_stack_status. -/
inductive DeployResult where
  | noUpdatesNeeded (stackId : String) (status : String)
  | stackDetails (d : StackDescription)
deriving Repr, DecidableEq

/-- _wait_for_stack_operation: builds the waiter named
stack_(operation.lower())_complete and waits on the stack id with
WaiterConfig Delay 30, MaxAttempts 30; a WaiterError is logged and
re-raised. -/
def wait_for_stack_operation (cenv : CfnEnv) (stack_id operation : String) :
    Except PyError Unit × List CfnCall :=
  match cenv.waiter_wait ("stack_" ++ pyLower operation ++ "_complete") stack_id with
  | .error e => (.error (.waiterError e),
      [.waiterWaitCall ("stack_" ++ pyLower operation ++ "_complete") stack_id])
  | .ok () => (.ok (),
      [.waiterWaitCall ("stack_" ++ pyLower operation ++ "_complete") stack_id])

/-- The tail of deploy_stack after a real update or create was submitted:
wait for the operation, then fetch and return the stack details via
_get_stack_status; a ClientError raised by describe_stacks is caught by
deploy_stack's outer handler, logged and re-raised to the caller. -/
def deployAfterSubmit (cenv : CfnEnv) (stack_id operation : String) :
    Except PyError DeployResult × List CfnCall :=
  match wait_for_stack_operation cenv stack_id operation with
  | (.error e, calls) => (.error e, calls)
  | (.ok (), calls) =>
      match cenv.describe_stacks stack_id with
      | .error e => (.error (.clientError e), calls ++ [.describeStacksCall stack_id])
      | .ok d => (.ok (.stackDetails d), calls ++ [.describeStacksCall stack_id])

/-- deploy_stack: attempt update_stack; on a ClientError whose text contains
"No updates are to be performed" return the NO_UPDATES_NEEDED dict at once;
on a ClientError whose text contains "does not exist" fall back to
create_stack; any other ClientError is logged and re-raised.  After a real
submit, wait for completion and return the stack details. -/
def deploy_stack (cenv : CfnEnv) (stack_name template_body : String) :
    Except PyError DeployResult × List CfnCall :=
  match cenv.update_stack stack_name template_body with
  | .ok response =>
      match deployAfterSubmit cenv response.StackId "UPDATE" with
      | (r, calls) => (r, .updateStackCall stack_name template_body :: calls)
  | .error e =>
      if strContains e "No updates are to be performed" then
        (.ok (.noUpdatesNeeded stack_name "NO_UPDATES_NEEDED"),
         [.updateStackCall stack_name template_body])
      else if strContains e "does not exist" then
        match cenv.create_stack stack_name template_body with
        | .error e2 =>
            (.error (.clientError e2),
             [.updateStackCall stack_name template_body,
              .createStackCall stack_name template_body])
        | .ok response =>
            match deployAfterSubmit cenv response.StackId "CREATE" with
            | (r, calls) =>
                (r, .updateStackCall stack_name template_body ::
                    .createStackCall stack_name template_body :: calls)
      else
        (.error (.clientError e), [.updateStackCall stack_name template_body])

/-- Number of completion-waiter calls in a CloudFormation call trace. -/
def countWaiterCalls (calls : List CfnCall) : Nat :=
  (calls.filter (fun c => match c with
    | .waiterWaitCall _ _ => true
    | _ => false)).length

/-- Number of create_stack calls in a CloudFormation call trace. -/
def countCreateCalls (calls : List CfnCall) : Nat :=
  (calls.filter (fun c => match c with
    | .createStackCall _ _ => true
    | _ => false)).length

/-- The method names defined by class CloudFormationHelper in
src/utils/cloudformation.py; the class has no other attributes and no
custom attribute hooks. -/
def CloudFormationHelperMethods : List String :=
  ["__init__", "deploy_stack", "_wait_for_stack_operation", "_get_stack_status"]

/-- Python attribute resolution for a method call on a CloudFormationHelper
instance: a name not defined on the class raises AttributeError before any
request is issued; a name that resolves dispatches into the method body. -/
def cfnHelperResolve (method : String) : Except PyError Unit :=
  if method ∈ CloudFormationHelperMethods then .ok () else .error (.attributeError method)

/-- The call cfn.delete_stack(stack_name) made by the delete-stack command
and the cleanup path of src/org_cli.py: attribute resolution on the
CloudFormationHelper instance; since the class defines no delete_stack
method, the call raises AttributeError before any request is issued and the
stack name is never consumed. -/
def cfnHelperDeleteStack (stack_name : String) : Except PyError Unit :=
  cfnHelperResolve "delete_stack"

/-! ## Concrete CloudFormation environments used by witnesses -/

/-- A cooperative CloudFormation endpoint: every operation succeeds. -/
def cfnEnvOk : CfnEnv where
  update_stack := fun name _ => .ok ⟨"arn:stack/" ++ name⟩
  create_stack := fun name _ => .ok ⟨"arn:stack/" ++ name⟩
  waiter_wait := fun _ _ => .ok ()
  describe_stacks := fun sid => .ok ⟨sid⟩

/-- An endpoint whose update_stack raises the no-updates ValidationError. -/
def cfnEnvNoUpd : CfnEnv :=
  { cfnEnvOk with
      update_stack := fun _ _ =>
        .error "An error occurred (ValidationError) when calling the UpdateStack operation: No updates are to be performed." }

/-- An endpoint whose update_stack raises the does-not-exist
ValidationError and whose create_stack succeeds. -/
def cfnEnvDne : CfnEnv :=
  { cfnEnvOk with
      update_stack := fun _ _ =>
        .error "An error occurred (ValidationError) when calling the UpdateStack operation: Stack with id landing-zone-logging does not exist",
      create_stack := fun _ _ => .ok ⟨"stack-created-1"⟩ }

/-- An endpoint whose update_stack raises an access-denied error that
matches neither branch condition. -/
def cfnEnvDenied : CfnEnv :=
  { cfnEnvOk with
      update_stack := fun _ _ =>
        .error "An error occurred (AccessDenied) when calling the UpdateStack operation: User is not authorized to perform cloudformation:UpdateStack" }

/-- Claim C3: if the update attempt fails with the no-updates condition,
deploy_stack returns the NO_UPDATES_NEEDED success at once, raises no
error, and issues no completion-waiter call. -/
theorem c3_no_updates_short_circuit (cenv : CfnEnv) (stack_name template_body e : String)
    (hupd : cenv.update_stack stack_name template_body = Except.error e)
    (hno : strContains e "No updates are to be performed" = true) :
    deploy_stack cenv stack_name template_body =
      (Except.ok (DeployResult.noUpdatesNeeded stack_name "NO_UPDATES_NEEDED"),
       [CfnCall.updateStackCall stack_name template_body]) ∧
    countWaiterCalls (deploy_stack cenv stack_name template_body).2 = 0 := by
  unfold deploy_stack
  rw [hupd]
  simp [hno, countWaiterCalls]

/-- Witness for C3 at the concrete no-updates environment. -/
theorem c3_witness :
    deploy_stack cfnEnvNoUpd "landing-zone-logging" "AWSTemplateFormatVersion: 2010-09-09" =
      (Except.ok (DeployResult.noUpdatesNeeded "landing-zone-logging" "NO_UPDATES_NEEDED"),
       [CfnCall.updateStackCall "landing-zone-logging" "AWSTemplateFormatVersion: 2010-09-09"]) :=
  (c3_no_updates_short_circuit cfnEnvNoUpd "landing-zone-logging"
    "AWSTemplateFormatVersion: 2010-09-09"
    "An error occurred (ValidationError) when calling the UpdateStack operation: No updates are to be performed."
    (by rfl) (by decide)).1

/-- Claim C4: the create-vs-update branch is resolved by the specific error
condition of the failed update.  If the update error signals that the stack
does not exist, deploy_stack falls back to create_stack (the create call
appears in the trace), any ClientError surfaced to the caller is the create
call's own error or the describe call's own error on the created stack —
never the does-not-exist update error, which is consumed by the branch —
and a successful create followed by a successful wait and a successful
describe yields the described stack details with no error.  Any other
update error is propagated verbatim to the caller with no create_stack
attempt. -/
theorem c4_create_vs_update_branching (cenv : CfnEnv) (stack_name template_body e : String)
    (hupd : cenv.update_stack stack_name template_body = Except.error e)
    (hno : strContains e "No updates are to be performed" = false) :
    (strContains e "does not exist" = true →
        CfnCall.createStackCall stack_name template_body ∈
          (deploy_stack cenv stack_name template_body).2 ∧
        (∀ e2, (deploy_stack cenv stack_name template_body).1 =
            Except.error (PyError.clientError e2) →
          cenv.create_stack stack_name template_body = Except.error e2 ∨
          ∃ resp, cenv.create_stack stack_name template_body = Except.ok resp ∧
            cenv.describe_stacks resp.StackId = Except.error e2) ∧
        (∀ resp d, cenv.create_stack stack_name template_body = Except.ok resp →
          cenv.waiter_wait "stack_create_complete" resp.StackId = Except.ok () →
          cenv.describe_stacks resp.StackId = Except.ok d →
          (deploy_stack cenv stack_name template_body).1 =
            Except.ok (DeployResult.stackDetails d))) ∧
    (strContains e "does not exist" = false →
        deploy_stack cenv stack_name template_body =
          (Except.error (PyError.clientError e),
           [CfnCall.updateStackCall stack_name template_body])) := by
  constructor
  · intro hdne
    have heq : deploy_stack cenv stack_name template_body =
        (match cenv.create_stack stack_name template_body with
         | .error e2 =>
             (.error (.clientError e2),
              [.updateStackCall stack_name template_body,
               .createStackCall stack_name template_body])
         | .ok response =>
             match deployAfterSubmit cenv response.StackId "CREATE" with
             | (r, calls) =>
                 (r, .updateStackCall stack_name template_body ::
                     .createStackCall stack_name template_body :: calls)) := by
      unfold deploy_stack
      rw [hupd]
      simp [hno, hdne]
    have hname : ("stack_" ++ pyLower "CREATE" ++ "_complete") = "stack_create_complete" := by
      decide
    rcases hc : cenv.create_stack stack_name template_body with e2 | resp <;>
      rw [hc] at heq
    · rw [heq]
      refine ⟨by simp, ?_, ?_⟩
      · intro e3 h3
        simp only [Except.error.injEq, PyError.clientError.injEq] at h3
        exact Or.inl (by rw [h3])
      · intro resp2 d hresp2
        exact absurd hresp2 (by simp)
    · simp only [deployAfterSubmit, wait_for_stack_operation, hname] at heq
      rcases hw : cenv.waiter_wait "stack_create_complete" resp.StackId with w | ⟨⟩ <;>
        rw [hw] at heq <;> dsimp only at heq
      · rw [heq]
        refine ⟨by simp, ?_, ?_⟩
        · intro e3 h3
          exact absurd h3 (by simp)
        · intro resp2 d hresp2 hw2 hd2
          injection hresp2 with h4
          subst h4
          rw [hw] at hw2
          exact absurd hw2 (by simp)
      · rcases hdd : cenv.describe_stacks resp.StackId with de | d0 <;>
          rw [hdd] at heq <;> dsimp only at heq
        · rw [heq]
          refine ⟨by simp, ?_, ?_⟩
          · intro e3 h3
            simp only [Except.error.injEq, PyError.clientError.injEq] at h3
            exact Or.inr ⟨resp, rfl, by rw [← h3]; exact hdd⟩
          · intro resp2 d hresp2 hw2 hd2
            injection hresp2 with h4
            subst h4
            rw [hdd] at hd2
            exact absurd hd2 (by simp)
        · rw [heq]
          refine ⟨by simp, ?_, ?_⟩
          · intro e3 h3
            exact absurd h3 (by simp)
          · intro resp2 d hresp2 hw2 hd2
            injection hresp2 with h4
            subst h4
            rw [hdd] at hd2
            injection hd2 with h5
            rw [h5]
  · intro hdne
    unfold deploy_stack
    rw [hupd]
    simp [hno, hdne]

/-- Witness for C4 at the concrete does-not-exist environment: deploy
resolves via create and returns the described stack details with no
error. -/
theorem c4_witness :
    (deploy_stack cfnEnvDne "landing-zone-logging" "AWSTemplateFormatVersion: 2010-09-09").1 =
      Except.ok (DeployResult.stackDetails ⟨"stack-created-1"⟩) :=
  ((c4_create_vs_update_branching cfnEnvDne "landing-zone-logging"
      "AWSTemplateFormatVersion: 2010-09-09"
      "An error occurred (ValidationError) when calling the UpdateStack operation: Stack with id landing-zone-logging does not exist"
      (by rfl) (by decide)).1 (by decide)).2.2 ⟨"stack-created-1"⟩ ⟨"stack-created-1"⟩
    (by rfl) (by rfl) (by rfl)

/-! ## Organizations helper (src/utils/org_helper.py) -/

/-- The CreateAccountStatus dict returned by
describe_create_account_status: the code reads the State, AccountId and
FailureReason entries. -/
structure CreateAccountStatus where
  State : String
  AccountId : String
  FailureReason : String
deriving Repr, DecidableEq

/-- The OrganizationalUnit dict returned by create_organizational_unit. -/
structure OUDetails where
  Id : String
  Name : String
  Arn : String
deriving Repr, DecidableEq

/-- Behaviour of the remote Organizations and STS endpoints: each field is
one boto3 client operation, returning the response or the message of the
ClientError it raises.  describe_status takes the request id and the index
of the poll (0-based), so a time-varying remote creation state can be
modelled; list_accounts and list_ous_for_parent return (Name, Id) pairs. -/
structure OrgEnv where
  create_account_submit : String → String → Except String String
  describe_status : String → Nat → Except String CreateAccountStatus
  list_roots : Except String String
  move_account : String → String → String → Except String Unit
  create_organizational_unit : String → String → Except String OUDetails
  list_accounts : Except String (List (String × String))
  list_parents : String → Except String String
  close_account : String → Except String Unit
  delete_organizational_unit : String → Except String Unit
  list_ous_for_parent : String → Except String (List (String × String))
  sts_assume_role : String → Except String Unit

/-- Observable polling behaviour of _wait_for_account_creation: how many
describe_create_account_status calls were issued and the sleep durations
issued after non-terminal polls, in order. -/
structure PollTrace where
  polls : Nat
  sleeps : List Nat
deriving Repr, DecidableEq

/-- The loop body of _wait_for_account_creation: at each remaining retry,
describe the creation status (a ClientError propagates), return it if its
State is SUCCEEDED or FAILED, otherwise sleep 30 and continue; when the
retries are exhausted raise TimeoutError("Account creation timed out"). -/
def waitLoop (env : OrgEnv) (request_id : String) :
    Nat → Nat → Except PyError CreateAccountStatus × PollTrace
  | 0, _ => (.error (.timeoutError "Account creation timed out"), ⟨0, []⟩)
  | fuel + 1, i =>
      match env.describe_status request_id i with
      | .error e => (.error (.clientError e), ⟨1, []⟩)
      | .ok status =>
          if status.State = "SUCCEEDED" ∨ status.State = "FAILED" then
            (.ok status, ⟨1, []⟩)
          else
            ((waitLoop env request_id fuel (i + 1)).1,
             ⟨(waitLoop env request_id fuel (i + 1)).2.polls + 1,
              30 :: (waitLoop env request_id fuel (i + 1)).2.sleeps⟩)

/-- _wait_for_account_creation(request_id, max_retries): polls from the
first attempt.  The Python default for max_retries is 20 and create_account
uses that default. -/
def wait_for_account_creation (env : OrgEnv) (request_id : String) (max_retries : Nat) :
    Except PyError CreateAccountStatus × PollTrace :=
  waitLoop env request_id max_retries 0

/-- The error_messages classification dict of create_account, applied with
dict.get(reason, reason): the five tabled failure reasons map to fixed
human-legible messages and any other reason passes through verbatim. -/
def mapFailureReason (r : String) : String :=
  if r = "EMAIL_ALREADY_EXISTS" then "Email address is already in use"
  else if r = "ACCOUNT_LIMIT_EXCEEDED" then "Account limit has been exceeded"
  else if r = "INVALID_EMAIL" then "Invalid email address provided"
  else if r = "INVALID_ADDRESS" then "Invalid address provided"
  else if r = "CONCURRENT_ACCOUNT_MODIFICATION" then "Another account operation in progress"
  else r

/-- The keys of the error_messages classification dict. -/
def errorMessageKeys : List String :=
  ["EMAIL_ALREADY_EXISTS", "ACCOUNT_LIMIT_EXCEEDED", "INVALID_EMAIL",
   "INVALID_ADDRESS", "CONCURRENT_ACCOUNT_MODIFICATION"]

/-- create_account(name, email, ou_id): submit the asynchronous creation
request, wait for it (max_retries 20), and on a SUCCEEDED terminal state
optionally move the new account from the organization root (fetched by
_get_root_id via list_roots) into the target OU, returning the status dict;
on any other terminal state raise Exception with the classified failure
reason.  ClientErrors from any of the remote calls are logged and
re-raised; the Exception and TimeoutError are not ClientErrors and
propagate unchanged. -/
def create_account (env : OrgEnv) (name email : String) (ou_id : Option String) :
    Except PyError CreateAccountStatus :=
  match env.create_account_submit name email with
  | .error e => .error (.clientError e)
  | .ok request_id =>
      match (wait_for_account_creation env request_id 20).1 with
      | .error e => .error e
      | .ok status =>
          if status.State = "SUCCEEDED" then
            match ou_id with
            | none => .ok status
            | some ou =>
                match env.list_roots with
                | .error e => .error (.clientError e)
                | .ok root_id =>
                    match env.move_account status.AccountId root_id ou with
                    | .error e => .error (.clientError e)
                    | .ok () => .ok status
          else
            .error (.exn (mapFailureReason status.FailureReason))

/-- get_account_id_by_name: scan list_accounts for the first account with
the given Name and return its Id, or None when no account matches; a
ClientError from list_accounts is logged and re-raised. -/
def get_account_id_by_name (env : OrgEnv) (account_name : String) :
    Except PyError (Option String) :=
  match env.list_accounts with
  | .error e => .error (.clientError e)
  | .ok accounts => .ok ((accounts.find? (fun a => a.1 == account_name)).map Prod.snd)

/-- get_ou_id_by_name: fetch the root id, list the organizational units
under it and return the Id of the first one with the given Name, or None
when no OU matches; ClientErrors are logged and re-raised. -/
def get_ou_id_by_name (env : OrgEnv) (ou_name : String) :
    Except PyError (Option String) :=
  match env.list_roots with
  | .error e => .error (.clientError e)
  | .ok root_id =>
      match env.list_ous_for_parent root_id with
      | .error e => .error (.clientError e)
      | .ok ous => .ok ((ous.find? (fun o => o.1 == ou_name)).map Prod.snd)

/-- delete_account(account_id): fetch the root id and the account's current
parent, move the account back to the root if it is not already there, then
issue close_account without waiting; ClientErrors are logged and
re-raised. -/
def delete_account (env : OrgEnv) (account_id : String) : Except PyError Unit :=
  match env.list_roots with
  | .error e => .error (.clientError e)
  | .ok root_id =>
      match env.list_parents account_id with
      | .error e => .error (.clientError e)
      | .ok current_parent =>
          match (if current_parent ≠ root_id
                 then env.move_account account_id current_parent root_id
                 else .ok ()) with
          | .error e => .error (.clientError e)
          | .ok () =>
              match env.close_account account_id with
              | .error e => .error (.clientError e)
              | .ok () => .ok ()

/-! ## Concrete Organizations environments used by witnesses -/

/-- A cooperative Organizations endpoint: every operation succeeds and the
first status poll reports SUCCEEDED with account id 111122223333. -/
def orgEnvOk : OrgEnv where
  create_account_submit := fun _ _ => .ok "car-0123456789abcdef"
  describe_status := fun _ _ => .ok ⟨"SUCCEEDED", "111122223333", ""⟩
  list_roots := .ok "r-abcd"
  move_account := fun _ _ _ => .ok ()
  create_organizational_unit := fun name parent =>
    .ok ⟨"ou-root-" ++ name, name, "arn:aws:organizations::ou/" ++ parent ++ "/" ++ name⟩
  list_accounts := .ok []
  list_parents := fun _ => .ok "r-abcd"
  close_account := fun _ => .ok ()
  delete_organizational_unit := fun _ => .ok ()
  list_ous_for_parent := fun _ => .ok []
  sts_assume_role := fun _ => .ok ()

/-- An endpoint whose creation status never leaves IN_PROGRESS. -/
def envPending : OrgEnv :=
  { orgEnvOk with
      describe_status := fun _ _ => .ok ⟨"IN_PROGRESS", "", ""⟩ }

/-- An endpoint whose creation reaches the FAILED terminal state with
FailureReason EMAIL_ALREADY_EXISTS. -/
def envFailEmail : OrgEnv :=
  { orgEnvOk with
      describe_status := fun _ _ => .ok ⟨"FAILED", "", "EMAIL_ALREADY_EXISTS"⟩ }

/-- An endpoint where creation succeeds but the subsequent move_account
call is rejected. -/
def envMoveFail : OrgEnv :=
  { orgEnvOk with
      move_account := fun _ _ _ =>
        .error "An error occurred (AccessDeniedException) when calling the MoveAccount operation" }

/-- An endpoint where the creation submit call itself is rejected, with
the same message as envMoveFail's relocation rejection. -/
def envSubmitFail : OrgEnv :=
  { orgEnvOk with
      create_account_submit := fun _ _ =>
        .error "An error occurred (AccessDeniedException) when calling the MoveAccount operation" }

/-! ## Claims on the Organizations helper -/

/-- Helper: the polling loop issues at most as many polls as it has
retries left, and every sleep it issues lasts 30 time units. -/
theorem waitLoop_bounded (env : OrgEnv) (request_id : String) :
    ∀ fuel i, (waitLoop env request_id fuel i).2.polls ≤ fuel ∧
      ∀ d ∈ (waitLoop env request_id fuel i).2.sleeps, d = 30 := by
  intro fuel
  induction fuel with
  | zero =>
      intro i
      exact ⟨Nat.le_refl 0, by simp [waitLoop]⟩
  | succ n ih =>
      intro i
      unfold waitLoop
      rcases hd : env.describe_status request_id i with e | status <;> dsimp only
      · exact ⟨by simp, by simp⟩
      · by_cases hterm : status.State = "SUCCEEDED" ∨ status.State = "FAILED"
        · rw [if_pos hterm]
          exact ⟨Nat.succ_le_succ (Nat.zero_le n), by simp⟩
        · rw [if_neg hterm]
          refine ⟨Nat.succ_le_succ (ih (i + 1)).1, ?_⟩
          intro d hd2
          simp only [List.mem_cons] at hd2
          rcases hd2 with h | h
          · exact h
          · exact (ih (i + 1)).2 d h

/-- Helper: if no poll among the remaining retries observes a terminal
state, the polling loop exhausts its entire budget, sleeping 30 after each
poll, and raises the timeout error. -/
theorem waitLoop_timeout (env : OrgEnv) (request_id : String) :
    ∀ fuel i,
      (∀ j, j < fuel → ∃ s, env.describe_status request_id (i + j) = .ok s ∧
          ¬(s.State = "SUCCEEDED" ∨ s.State = "FAILED")) →
      waitLoop env request_id fuel i =
        (.error (.timeoutError "Account creation timed out"),
         ⟨fuel, List.replicate fuel 30⟩) := by
  intro fuel
  induction fuel with
  | zero =>
      intro i _
      rfl
  | succ n ih =>
      intro i h
      obtain ⟨s, hs, hterm⟩ := h 0 (Nat.succ_pos n)
      rw [Nat.add_zero] at hs
      unfold waitLoop
      rw [hs]
      dsimp only
      rw [if_neg hterm]
      have ih2 := ih (i + 1) (fun j hj => by
        have h2 := h (j + 1) (Nat.succ_lt_succ hj)
        rwa [show i + (j + 1) = i + 1 + j by omega] at h2)
      rw [ih2]
      rfl

/-- Claim C5: account-creation polling performs at most the bounded
attempt count of 20 polls at a fixed 30-time-unit sleep interval and
always terminates; if the remote status never reaches a terminal
SUCCEEDED or FAILED state within the bound, the call fails with the
timeout error after exactly 20 polls and 20 sleeps of 30, and that
timeout error is distinct from the Exception a remote FAILED outcome
raises. -/
theorem c5_polling_bounded_timeout (env : OrgEnv) (request_id : String)
    (h : ∀ j, j < 20 → ∃ s, env.describe_status request_id j = .ok s ∧
        ¬(s.State = "SUCCEEDED" ∨ s.State = "FAILED")) :
    (wait_for_account_creation env request_id 20).1 =
        .error (.timeoutError "Account creation timed out") ∧
    (wait_for_account_creation env request_id 20).2.polls = 20 ∧
    (wait_for_account_creation env request_id 20).2.sleeps = List.replicate 20 30 ∧
    (∀ (env2 : OrgEnv) (rid2 : String) (m : Nat),
        (wait_for_account_creation env2 rid2 m).2.polls ≤ m ∧
        ∀ d ∈ (wait_for_account_creation env2 rid2 m).2.sleeps, d = 30) ∧
    (∀ reason, (PyError.timeoutError "Account creation timed out") ≠
        PyError.exn (mapFailureReason reason)) := by
  have ht := waitLoop_timeout env request_id 20 0 (fun j hj => by
    simpa using h j hj)
  unfold wait_for_account_creation
  rw [ht]
  refine ⟨rfl, rfl, rfl, ?_, ?_⟩
  · intro env2 rid2 m
    exact waitLoop_bounded env2 rid2 m 0
  · intro reason
    simp

/-- Witness for C5 at an endpoint that never reports a terminal state. -/
theorem c5_witness :
    (wait_for_account_creation envPending "car-0123456789abcdef" 20).1 =
      Except.error (PyError.timeoutError "Account creation timed out") :=
  (c5_polling_bounded_timeout envPending "car-0123456789abcdef"
    (fun _ _ => ⟨⟨"IN_PROGRESS", "", ""⟩, rfl, by decide⟩)).1

/-- Claim C6: a FAILED terminal creation state raises an Exception whose
message is the failure reason mapped through the fixed classification
table: EMAIL_ALREADY_EXISTS yields a message containing "already in use",
the other four tabled reasons map to their fixed messages, and any
untabled reason passes through verbatim. -/
theorem c6_failure_reason_classification (env : OrgEnv) (name email : String)
    (ou_id : Option String) (request_id : String) (status : CreateAccountStatus)
    (hsub : env.create_account_submit name email = Except.ok request_id)
    (hwait : (wait_for_account_creation env request_id 20).1 = Except.ok status)
    (hfail : status.State = "FAILED") :
    create_account env name email ou_id =
        Except.error (PyError.exn (mapFailureReason status.FailureReason)) ∧
    mapFailureReason "EMAIL_ALREADY_EXISTS" = "Email address is already in use" ∧
    strContains (mapFailureReason "EMAIL_ALREADY_EXISTS") "already in use" = true ∧
    mapFailureReason "ACCOUNT_LIMIT_EXCEEDED" = "Account limit has been exceeded" ∧
    mapFailureReason "INVALID_EMAIL" = "Invalid email address provided" ∧
    mapFailureReason "INVALID_ADDRESS" = "Invalid address provided" ∧
    mapFailureReason "CONCURRENT_ACCOUNT_MODIFICATION" =
        "Another account operation in progress" ∧
    ∀ r, r ∉ errorMessageKeys → mapFailureReason r = r := by
  refine ⟨?_, by decide, by decide, by decide, by decide, by decide, by decide, ?_⟩
  · unfold create_account
    rw [hsub]
    dsimp only
    rw [hwait]
    dsimp only
    rw [if_neg (by rw [hfail]; decide)]
  · intro r hr
    simp only [errorMessageKeys, List.mem_cons, List.not_mem_nil, or_false,
      not_or] at hr
    obtain ⟨h1, h2, h3, h4, h5⟩ := hr
    simp [mapFailureReason, h1, h2, h3, h4, h5]

/-- Witness for C6 at an endpoint whose creation fails with
EMAIL_ALREADY_EXISTS. -/
theorem c6_witness :
    create_account envFailEmail "LogAccount" "log@example.com" none =
      Except.error (PyError.exn (mapFailureReason "EMAIL_ALREADY_EXISTS")) :=
  (c6_failure_reason_classification envFailEmail "LogAccount" "log@example.com" none
    "car-0123456789abcdef" ⟨"FAILED", "", "EMAIL_ALREADY_EXISTS"⟩
    (by rfl) (by rfl) rfl).1

/-- Claim C10: whenever create_account returns normally instead of
raising, the returned status dict has State SUCCEEDED — a FAILED terminal
state and an exhausted poll budget are always raised as errors, never
returned. -/
theorem c10_normal_return_succeeded (env : OrgEnv) (name email : String)
    (ou_id : Option String) (status : CreateAccountStatus)
    (h : create_account env name email ou_id = Except.ok status) :
    status.State = "SUCCEEDED" := by
  unfold create_account at h
  repeat' split at h
  all_goals simp_all

/-- Witness for C10 at the cooperative endpoint. -/
theorem c10_witness :
    (CreateAccountStatus.mk "SUCCEEDED" "111122223333" "").State = "SUCCEEDED" :=
  c10_normal_return_succeeded orgEnvOk "LogAccount" "log@example.com" none
    ⟨"SUCCEEDED", "111122223333", ""⟩ (by rfl)

/-- Claim C2 (the code evaluated at the failing input): when creation
reaches SUCCEEDED with account id 111122223333 and the subsequent
move_account call raises a ClientError, create_account re-raises that raw
ClientError: the result is exactly the same error value an account-creation
submit failure with the same message produces, so it is not a distinct
partial-failure kind, and its message does not carry the created account's
id. -/
theorem c2_relocation_failure_not_distinct :
    create_account envMoveFail "LogAccount" "log@example.com" (some "ou-logging-1") =
      Except.error (PyError.clientError
        "An error occurred (AccessDeniedException) when calling the MoveAccount operation") ∧
    create_account envSubmitFail "LogAccount" "log@example.com" (some "ou-logging-1") =
      create_account envMoveFail "LogAccount" "log@example.com" (some "ou-logging-1") ∧
    strContains
      "An error occurred (AccessDeniedException) when calling the MoveAccount operation"
      "111122223333" = false := by
  refine ⟨by rfl, by rfl, by decide⟩

/-! ## CLI orchestration (src/org_cli.py) -/

/-- One account entry of an organizational unit in configs/accounts.yaml. -/
structure AccountSpec where
  name : String
  email : String
deriving Repr, DecidableEq

/-- One organizational-unit entry of the configuration: its parent_id and
its accounts list (a missing accounts key reads as the empty list via
dict.get). -/
structure OUConfig where
  parent_id : String
  accounts : List AccountSpec
deriving Repr, DecidableEq

/-- The loaded configs/accounts.yaml: the organizational_units mapping as
an association list in YAML declaration order, or none when the key is
absent. -/
structure Config where
  organizational_units : Option (List (String × OUConfig))
deriving Repr, DecidableEq

/-- Python membership test and indexing of the organizational_units
mapping: the entry for a stage name, if any. -/
def lookupOU (ous : List (String × OUConfig)) (t : String) : Option OUConfig :=
  (ous.find? (fun p => p.1 == t)).map Prod.snd

/-- The hardcoded deployment order of org_cli.launch. -/
def deployment_order : List String := ["Logging", "Security", "Infrastructure"]

/-- The hardcoded reversed deployment order of org_cli.cleanup. -/
def cleanup_order : List String := ["Infrastructure", "Security", "Logging"]

/-- The stage names the plan declares, in YAML declaration order. -/
def declaredStages (c : Config) : List String :=
  (c.organizational_units.getD []).map Prod.fst

/-- launch's template_map, with its single-string entries normalised to
one-element lists by the isinstance branch, defaulting to [] for stages
outside the map. -/
def launch_template_map (t : String) : List String :=
  if t = "Logging" then ["logging.yaml"]
  else if t = "Security" then ["security.yaml"]
  else if t = "Infrastructure" then ["vpc-base.yaml", "shared-services.yaml"]
  else []

/-- cleanup's template_map, defaulting to [] for stages outside the map. -/
def cleanup_template_map (t : String) : List String :=
  if t = "Logging" then ["logging.yaml"]
  else if t = "Security" then ["security.yaml"]
  else if t = "Infrastructure" then ["vpc-base.yaml", "shared-services.yaml"]
  else []

/-- Python template.replace(".yaml", ""): remove every occurrence. -/
def stripYamlText (t : String) : String := String.join (t.splitOn ".yaml")

/-- The landing-zone stack name derived from a template file name. -/
def stackNameFor (t : String) : String := "landing-zone-" ++ stripYamlText t

/-- The role ARN the CLI builds for account-scoped CloudFormation work. -/
def roleArnFor (account_id : String) : String :=
  "arn:aws:iam::" ++ account_id ++ ":role/OrganizationAccountAccessRole"

/-- Coarse trace of the operations the launch and cleanup orchestrations
perform, in order: a stage progress task starting, and the operations
issued through the helpers. -/
inductive Op where
  | stageStart (stage : String)
  | createOU (name parentId : String)
  | createAccountOp (name email : String) (ouId : Option String)
  | deployStackOp (stackName : String)
  | lookupAccount (name : String)
  | assumeRole (accountId : String)
  | deleteAccountOp (accountId : String)
  | lookupOu (name : String)
  | deleteOuOp (ouId : String)
deriving Repr, DecidableEq

/-- The stage names a trace processed, in order. -/
def processedStages (ops : List Op) : List String :=
  ops.filterMap (fun o => match o with
    | .stageStart s => some s
    | _ => none)

/-- Sequencing of two traced computations, as the Python loops do it: run
the second only when the first raised nothing, concatenating the traces. -/
def seqOps (a : Except PyError Unit × List Op)
    (b : Unit → Except PyError Unit × List Op) :
    Except PyError Unit × List Op :=
  match a.1 with
  | .error e => (.error e, a.2)
  | .ok () => ((b ()).1, a.2 ++ (b ()).2)

/-- launch's per-account template deployments: for each template mapped to
the stage, read its body from the template source and deploy the
landing-zone stack; a deploy error aborts the loop and propagates. -/
def deployTemplatesLoop (cenv : CfnEnv) (tenv : String → String) :
    List String → Except PyError Unit × List Op
  | [] => (.ok (), [])
  | t :: rest =>
      match (deploy_stack cenv (stackNameFor t) (tenv t)).1 with
      | .error e => (.error e, [.deployStackOp (stackNameFor t)])
      | .ok _ =>
          ((deployTemplatesLoop cenv tenv rest).1,
           .deployStackOp (stackNameFor t) :: (deployTemplatesLoop cenv tenv rest).2)

/-- launch's work for one account of a stage: create the account in the
stage's OU; when the returned State is SUCCEEDED, deploy the stage's
templates; an error propagates. -/
def launchOneAccount (oenv : OrgEnv) (cenv : CfnEnv) (tenv : String → String)
    (ouType ouId : String) (a : AccountSpec) : Except PyError Unit × List Op :=
  match create_account oenv a.name a.email (some ouId) with
  | .error e => (.error e, [.createAccountOp a.name a.email (some ouId)])
  | .ok status =>
      ((if status.State = "SUCCEEDED"
        then deployTemplatesLoop cenv tenv (launch_template_map ouType)
        else (.ok (), [])).1,
       .createAccountOp a.name a.email (some ouId) ::
         (if status.State = "SUCCEEDED"
          then deployTemplatesLoop cenv tenv (launch_template_map ouType)
          else (.ok (), [])).2)

/-- launch's account loop within one stage. -/
def launchAccountsLoop (oenv : OrgEnv) (cenv : CfnEnv) (tenv : String → String)
    (ouType ouId : String) : List AccountSpec → Except PyError Unit × List Op
  | [] => (.ok (), [])
  | a :: rest =>
      seqOps (launchOneAccount oenv cenv tenv ouType ouId a)
        (fun _ => launchAccountsLoop oenv cenv tenv ouType ouId rest)

/-- launch's work for one present stage: start the progress task, create
the stage's OU, then run the account loop. -/
def launchStage (oenv : OrgEnv) (cenv : CfnEnv) (tenv : String → String)
    (t : String) (cfg : OUConfig) : Except PyError Unit × List Op :=
  match oenv.create_organizational_unit t cfg.parent_id with
  | .error e => (.error (.clientError e), [.stageStart t, .createOU t cfg.parent_id])
  | .ok ou =>
      ((launchAccountsLoop oenv cenv tenv t ou.Id cfg.accounts).1,
       .stageStart t :: .createOU t cfg.parent_id ::
         (launchAccountsLoop oenv cenv tenv t ou.Id cfg.accounts).2)

/-- launch's stage loop over the hardcoded deployment order: a stage name
absent from the configuration is skipped before its progress task starts;
a stage failure is logged and re-raised, aborting the remaining stages. -/
def launchLoop (oenv : OrgEnv) (cenv : CfnEnv) (tenv : String → String)
    (ous : List (String × OUConfig)) : List String → Except PyError Unit × List Op
  | [] => (.ok (), [])
  | t :: rest =>
      match lookupOU ous t with
      | none => launchLoop oenv cenv tenv ous rest
      | some cfg =>
          seqOps (launchStage oenv cenv tenv t cfg)
            (fun _ => launchLoop oenv cenv tenv ous rest)

/-- The launch command after loading the configuration: when the
organizational_units collection is absent or empty (Python falsy), raise
ValueError("No organizational units defined in config") before any remote
operation, otherwise run the stage loop. -/
def launchRun (oenv : OrgEnv) (cenv : CfnEnv) (tenv : String → String)
    (c : Config) : Except PyError Unit × List Op :=
  match c.organizational_units with
  | none => (.error (.valueError "No organizational units defined in config"), [])
  | some ous =>
      if ous.isEmpty then
        (.error (.valueError "No organizational units defined in config"), [])
      else
        launchLoop oenv cenv tenv ous deployment_order

/-- cleanup's per-account stack deletions: one cfn.delete_stack call per
template mapped to the stage. -/
def cleanupStacksLoop : List String → Except PyError Unit
  | [] => .ok ()
  | t :: rest =>
      match cfnHelperDeleteStack (stackNameFor t) with
      | .error e => .error e
      | .ok () => cleanupStacksLoop rest

/-- cleanup's work for one account of a stage: resolve the live account id
by name; when absent, skip the whole account silently; otherwise construct
the scoped CloudFormationHelper (its constructor assumes the account role),
delete the stage's stacks, then delete the account. -/
def cleanupAccount (env : OrgEnv) (ouType accountName : String) :
    Except PyError Unit × List Op :=
  match get_account_id_by_name env accountName with
  | .error e => (.error e, [.lookupAccount accountName])
  | .ok none => (.ok (), [.lookupAccount accountName])
  | .ok (some account_id) =>
      match env.sts_assume_role (roleArnFor account_id) with
      | .error e =>
          (.error (.clientError e),
           [.lookupAccount accountName, .assumeRole account_id])
      | .ok () =>
          match cleanupStacksLoop (cleanup_template_map ouType) with
          | .error e =>
              (.error e, [.lookupAccount accountName, .assumeRole account_id])
          | .ok () =>
              match delete_account env account_id with
              | .error e =>
                  (.error e,
                   [.lookupAccount accountName, .assumeRole account_id,
                    .deleteAccountOp account_id])
              | .ok () =>
                  (.ok (),
                   [.lookupAccount accountName, .assumeRole account_id,
                    .deleteAccountOp account_id])

/-- cleanup's account loop within one stage. -/
def cleanupAccountsLoop (env : OrgEnv) (ouType : String) :
    List AccountSpec → Except PyError Unit × List Op
  | [] => (.ok (), [])
  | a :: rest =>
      seqOps (cleanupAccount env ouType a.name)
        (fun _ => cleanupAccountsLoop env ouType rest)

/-- cleanup's OU step for one stage: resolve the OU id by name; when
absent, skip silently; otherwise delete the OU. -/
def cleanupOuStep (env : OrgEnv) (ouType : String) : Except PyError Unit × List Op :=
  match get_ou_id_by_name env ouType with
  | .error e => (.error e, [.lookupOu ouType])
  | .ok none => (.ok (), [.lookupOu ouType])
  | .ok (some ou_id) =>
      match env.delete_organizational_unit ou_id with
      | .error e => (.error (.clientError e), [.lookupOu ouType, .deleteOuOp ou_id])
      | .ok () => (.ok (), [.lookupOu ouType, .deleteOuOp ou_id])

/-- cleanup's work for one present stage: start the progress task, tear
down each of the stage's accounts, then the stage's OU. -/
def cleanupStage (env : OrgEnv) (t : String) (cfg : OUConfig) :
    Except PyError Unit × List Op :=
  ((seqOps (cleanupAccountsLoop env t cfg.accounts) (fun _ => cleanupOuStep env t)).1,
   .stageStart t ::
     (seqOps (cleanupAccountsLoop env t cfg.accounts) (fun _ => cleanupOuStep env t)).2)

/-- cleanup's stage loop over the hardcoded reversed order; a stage
failure is logged and re-raised, aborting the remaining stages. -/
def cleanupLoop (env : OrgEnv) (ous : List (String × OUConfig)) :
    List String → Except PyError Unit × List Op
  | [] => (.ok (), [])
  | t :: rest =>
      match lookupOU ous t with
      | none => cleanupLoop env ous rest
      | some cfg =>
          seqOps (cleanupStage env t cfg) (fun _ => cleanupLoop env ous rest)

/-- The cleanup command after loading the configuration: the loop's
membership test indexes config["organizational_units"] directly, so an
absent key raises KeyError at the first iteration, before any remote
operation; cleanup performs no other configuration validation. -/
def cleanupRun (env : OrgEnv) (c : Config) : Except PyError Unit × List Op :=
  match c.organizational_units with
  | none => (.error (.keyError "organizational_units"), [])
  | some ous => cleanupLoop env ous cleanup_order

/-! ## Stage-order lemmas -/

/-- Helper: processedStages distributes over trace concatenation. -/
theorem processedStages_append (l1 l2 : List Op) :
    processedStages (l1 ++ l2) = processedStages l1 ++ processedStages l2 := by
  simp [processedStages]

/-- Helper: a sequenced computation whose parts contribute no stage marker
contributes none. -/
theorem seqOps_stages_nil (a : Except PyError Unit × List Op)
    (b : Unit → Except PyError Unit × List Op)
    (h1 : processedStages a.2 = []) (h2 : processedStages (b ()).2 = []) :
    processedStages (seqOps a b).2 = [] := by
  unfold seqOps
  split
  · exact h1
  · rw [processedStages_append, h1, h2]
    rfl

/-- Helper: template deployments contribute no stage marker. -/
theorem deployTemplatesLoop_stages (cenv : CfnEnv) (tenv : String → String) :
    ∀ ts, processedStages (deployTemplatesLoop cenv tenv ts).2 = [] := by
  intro ts
  induction ts with
  | nil => rfl
  | cons t rest ih =>
      unfold deployTemplatesLoop
      split
      · rfl
      · simpa [processedStages] using ih

/-- Helper: one account's launch work contributes no stage marker. -/
theorem launchOneAccount_stages (oenv : OrgEnv) (cenv : CfnEnv)
    (tenv : String → String) (ouType ouId : String) (a : AccountSpec) :
    processedStages (launchOneAccount oenv cenv tenv ouType ouId a).2 = [] := by
  unfold launchOneAccount
  split
  · rfl
  · split
    · simpa [processedStages] using
        deployTemplatesLoop_stages cenv tenv (launch_template_map ouType)
    · rfl

/-- Helper: a stage's account loop contributes no stage marker. -/
theorem launchAccountsLoop_stages (oenv : OrgEnv) (cenv : CfnEnv)
    (tenv : String → String) (ouType ouId : String) :
    ∀ as2, processedStages (launchAccountsLoop oenv cenv tenv ouType ouId as2).2 = [] := by
  intro as2
  induction as2 with
  | nil => rfl
  | cons a rest ih =>
      unfold launchAccountsLoop
      exact seqOps_stages_nil _ _
        (launchOneAccount_stages oenv cenv tenv ouType ouId a) ih

/-- Helper: a present stage's launch work contributes exactly its own
stage marker. -/
theorem launchStage_stages (oenv : OrgEnv) (cenv : CfnEnv)
    (tenv : String → String) (t : String) (cfg : OUConfig) :
    processedStages (launchStage oenv cenv tenv t cfg).2 = [t] := by
  unfold launchStage
  split
  · rfl
  · simpa [processedStages] using
      launchAccountsLoop_stages oenv cenv tenv t _ cfg.accounts

/-- Helper: a completed launch stage loop processes exactly the stages of
its order list that are present in the configuration, in the order list's
order. -/
theorem launchLoop_stages_ok (oenv : OrgEnv) (cenv : CfnEnv)
    (tenv : String → String) (ous : List (String × OUConfig)) :
    ∀ order, (launchLoop oenv cenv tenv ous order).1 = .ok () →
      processedStages (launchLoop oenv cenv tenv ous order).2 =
        order.filter (fun t => (lookupOU ous t).isSome) := by
  intro order
  induction order with
  | nil => intro _; rfl
  | cons t rest ih =>
      intro h
      unfold launchLoop at h ⊢
      rcases hlk : lookupOU ous t with _ | cfg <;> simp only [hlk] at h ⊢
      · simpa [List.filter_cons, hlk] using ih h
      · unfold seqOps at h ⊢
        rcases hst : (launchStage oenv cenv tenv t cfg).1 with e | u
        · rw [hst] at h
          dsimp only at h
          exact absurd h (by simp)
        · cases u
          rw [hst] at h
          dsimp only at h ⊢
          rw [processedStages_append, launchStage_stages, ih h]
          simp [List.filter_cons, hlk]

/-- Helper: one account's cleanup work contributes no stage marker. -/
theorem cleanupAccount_stages (env : OrgEnv) (ouType accountName : String) :
    processedStages (cleanupAccount env ouType accountName).2 = [] := by
  unfold cleanupAccount
  repeat' split
  all_goals rfl

/-- Helper: a stage's cleanup account loop contributes no stage marker. -/
theorem cleanupAccountsLoop_stages (env : OrgEnv) (ouType : String) :
    ∀ as2, processedStages (cleanupAccountsLoop env ouType as2).2 = [] := by
  intro as2
  induction as2 with
  | nil => rfl
  | cons a rest ih =>
      unfold cleanupAccountsLoop
      exact seqOps_stages_nil _ _ (cleanupAccount_stages env ouType a.name) ih

/-- Helper: a stage's OU cleanup step contributes no stage marker. -/
theorem cleanupOuStep_stages (env : OrgEnv) (ouType : String) :
    processedStages (cleanupOuStep env ouType).2 = [] := by
  unfold cleanupOuStep
  repeat' split
  all_goals rfl

/-- Helper: a present stage's cleanup work contributes exactly its own
stage marker. -/
theorem cleanupStage_stages (env : OrgEnv) (t : String) (cfg : OUConfig) :
    processedStages (cleanupStage env t cfg).2 = [t] := by
  unfold cleanupStage
  have h := seqOps_stages_nil (cleanupAccountsLoop env t cfg.accounts)
    (fun _ => cleanupOuStep env t)
    (cleanupAccountsLoop_stages env t cfg.accounts)
    (cleanupOuStep_stages env t)
  simpa [processedStages] using h

/-- Helper: a completed cleanup stage loop processes exactly the stages of
its order list that are present in the configuration, in the order list's
order. -/
theorem cleanupLoop_stages_ok (env : OrgEnv) (ous : List (String × OUConfig)) :
    ∀ order, (cleanupLoop env ous order).1 = .ok () →
      processedStages (cleanupLoop env ous order).2 =
        order.filter (fun t => (lookupOU ous t).isSome) := by
  intro order
  induction order with
  | nil => intro _; rfl
  | cons t rest ih =>
      intro h
      unfold cleanupLoop at h ⊢
      rcases hlk : lookupOU ous t with _ | cfg <;> simp only [hlk] at h ⊢
      · simpa [List.filter_cons, hlk] using ih h
      · unfold seqOps at h ⊢
        rcases hst : (cleanupStage env t cfg).1 with e | u
        · rw [hst] at h
          dsimp only at h
          exact absurd h (by simp)
        · cases u
          rw [hst] at h
          dsimp only at h ⊢
          rw [processedStages_append, cleanupStage_stages, ih h]
          simp [List.filter_cons, hlk]

/-! ## Claims on the orchestration -/

/-- A two-stage configuration whose YAML declaration order is Security
before Logging, with no accounts, used by the C7 theorems. -/
def ousDemo : List (String × OUConfig) :=
  [("Security", ⟨"r-abcd", []⟩), ("Logging", ⟨"r-abcd", []⟩)]

/-- Claim C7 counterexample: launch does not process stages in the plan's
declared order — with a plan declaring Security before Logging, launch
still processes Logging before Security (the hardcoded deployment order),
so reordering the plan does not reorder execution. -/
theorem c7_declared_order_counterexample :
    (launchRun orgEnvOk cfnEnvOk (fun _ => "") (Config.mk (some ousDemo))).1 =
      Except.ok () ∧
    declaredStages (Config.mk (some ousDemo)) = ["Security", "Logging"] ∧
    processedStages (launchRun orgEnvOk cfnEnvOk (fun _ => "") (Config.mk (some ousDemo))).2 =
      ["Logging", "Security"] ∧
    processedStages (launchRun orgEnvOk cfnEnvOk (fun _ => "") (Config.mk (some ousDemo))).2 ≠
      declaredStages (Config.mk (some ousDemo)) := by
  refine ⟨by rfl, by rfl, by rfl, ?_⟩
  rw [show processedStages
        (launchRun orgEnvOk cfnEnvOk (fun _ => "") (Config.mk (some ousDemo))).2 =
      ["Logging", "Security"] from rfl]
  rw [show declaredStages (Config.mk (some ousDemo)) = ["Security", "Logging"] from rfl]
  decide

/-- Claim C7 as amended: for every plan, a completed launch processes the
hardcoded order Logging, Security, Infrastructure restricted to the stages
present in the plan — independent of the plan's declared order — and a
completed cleanup processes exactly the reverse of launch's stage order. -/
theorem c7_fixed_order_reverse_cleanup (oenv oenv2 : OrgEnv) (cenv : CfnEnv)
    (tenv : String → String) (ous : List (String × OUConfig))
    (hl : (launchRun oenv cenv tenv (Config.mk (some ous))).1 = .ok ())
    (hc : (cleanupRun oenv2 (Config.mk (some ous))).1 = .ok ()) :
    processedStages (launchRun oenv cenv tenv (Config.mk (some ous))).2 =
      deployment_order.filter (fun t => (lookupOU ous t).isSome) ∧
    processedStages (cleanupRun oenv2 (Config.mk (some ous))).2 =
      (processedStages (launchRun oenv cenv tenv (Config.mk (some ous))).2).reverse := by
  unfold launchRun at hl ⊢
  unfold cleanupRun at hc ⊢
  dsimp only at hl hc ⊢
  by_cases he : ous.isEmpty
  · rw [if_pos he] at hl
    exact absurd hl (by simp)
  · rw [if_neg he] at hl ⊢
    refine ⟨launchLoop_stages_ok oenv cenv tenv ous deployment_order hl, ?_⟩
    rw [launchLoop_stages_ok oenv cenv tenv ous deployment_order hl,
        cleanupLoop_stages_ok oenv2 ous cleanup_order hc]
    cases h1 : (lookupOU ous "Logging").isSome <;>
      cases h2 : (lookupOU ous "Security").isSome <;>
        cases h3 : (lookupOU ous "Infrastructure").isSome <;>
          simp [deployment_order, cleanup_order, h1, h2, h3]

/-- Witness for C7 at a concrete two-stage plan and cooperative
endpoints. -/
theorem c7_witness :
    processedStages (cleanupRun orgEnvOk (Config.mk (some ousDemo))).2 =
      (processedStages
        (launchRun orgEnvOk cfnEnvOk (fun _ => "") (Config.mk (some ousDemo))).2).reverse :=
  (c7_fixed_order_reverse_cleanup orgEnvOk orgEnvOk cfnEnvOk (fun _ => "") ousDemo
    (by rfl) (by rfl)).2

/-- Claim C8: an account whose live id resolves as absent during cleanup
is skipped silently — no role assumption, no stack deletion, no account
deletion, no error — and the account loop continues with the remaining
accounts; likewise an OU whose id resolves as absent is treated as already
cleaned. -/
theorem c8_missing_entities_skipped (env : OrgEnv) (ouType accountName email2 : String)
    (rest : List AccountSpec)
    (ha : get_account_id_by_name env accountName = Except.ok none)
    (ho : get_ou_id_by_name env ouType = Except.ok none) :
    cleanupAccount env ouType accountName = (.ok (), [.lookupAccount accountName]) ∧
    cleanupAccountsLoop env ouType (⟨accountName, email2⟩ :: rest) =
      ((cleanupAccountsLoop env ouType rest).1,
       .lookupAccount accountName :: (cleanupAccountsLoop env ouType rest).2) ∧
    cleanupOuStep env ouType = (.ok (), [.lookupOu ouType]) := by
  have h1 : cleanupAccount env ouType accountName =
      (.ok (), [.lookupAccount accountName]) := by
    unfold cleanupAccount
    rw [ha]
  refine ⟨h1, ?_, ?_⟩
  · rw [show cleanupAccountsLoop env ouType (⟨accountName, email2⟩ :: rest) =
          seqOps (cleanupAccount env ouType accountName)
            (fun _ => cleanupAccountsLoop env ouType rest) from rfl,
        h1]
    rfl
  · unfold cleanupOuStep
    rw [ho]

/-- Witness for C8 at an endpoint whose account and OU listings are
empty, so both lookups resolve as absent. -/
theorem c8_witness :
    cleanupAccount orgEnvOk "Logging" "LogAccount" =
      (Except.ok (), [Op.lookupAccount "LogAccount"]) :=
  (c8_missing_entities_skipped orgEnvOk "Logging" "LogAccount" "log@example.com" []
    (by rfl) (by rfl)).1

/-- Claim C9 counterexample: with an empty organizational-units mapping,
cleanup does not fail fast with a configuration error — it completes
successfully, performing no operation at all. -/
theorem c9_empty_config_cleanup_counterexample :
    cleanupRun orgEnvOk (Config.mk (some [])) = (Except.ok (), []) := by
  rfl

/-- Claim C9 as amended: launch fails fast with the configuration
ValueError before any remote operation when the organizational-units
collection is absent or empty; cleanup performs no such validation — an
absent collection raises a KeyError at the loop's first membership test,
before any remote operation, while an empty collection is silently
skipped and cleanup completes successfully with no operation. -/
theorem c9_fail_fast_amended (oenv oenv2 : OrgEnv) (cenv : CfnEnv)
    (tenv : String → String) (c : Config)
    (h : c.organizational_units = none ∨ c.organizational_units = some []) :
    launchRun oenv cenv tenv c =
      (.error (.valueError "No organizational units defined in config"), []) ∧
    (c.organizational_units = none →
      cleanupRun oenv2 c = (.error (.keyError "organizational_units"), [])) ∧
    (c.organizational_units = some [] →
      cleanupRun oenv2 c = (.ok (), [])) := by
  rcases h with h | h
  · refine ⟨?_, fun _ => ?_, fun h2 => ?_⟩
    · unfold launchRun
      rw [h]
    · unfold cleanupRun
      rw [h]
    · rw [h] at h2
      exact absurd h2 (by simp)
  · refine ⟨?_, fun h2 => ?_, fun _ => ?_⟩
    · unfold launchRun
      rw [h]
      rfl
    · rw [h] at h2
      exact absurd h2 (by simp)
    · unfold cleanupRun
      rw [h]
      rfl

/-- Witness for C9 at a configuration with no organizational_units key. -/
theorem c9_witness :
    launchRun orgEnvOk cfnEnvOk (fun _ => "") (Config.mk none) =
      (Except.error (PyError.valueError "No organizational units defined in config"),
       []) :=
  (c9_fail_fast_amended orgEnvOk orgEnvOk cfnEnvOk (fun _ => "") (Config.mk none)
    (Or.inl rfl)).1

/-- An endpoint whose account listing resolves LogAccount, so cleanup
reaches its stack-deletion step. -/
def envAccountPresent : OrgEnv :=
  { orgEnvOk with list_accounts := .ok [("LogAccount", "111122223333")] }

/-- Claim C1 (the code evaluated at the failing input): class
CloudFormationHelper defines no delete_stack method, so the
cfn.delete_stack call shared by the delete-stack command and the cleanup
path raises AttributeError instead of issuing the deletion request and
returning a result; in particular cleanup of a resolvable account fails
with that AttributeError. -/
theorem c1_delete_stack_method_missing :
    "delete_stack" ∉ CloudFormationHelperMethods ∧
    cfnHelperDeleteStack "landing-zone-logging" =
      Except.error (PyError.attributeError "delete_stack") ∧
    (cleanupAccount envAccountPresent "Logging" "LogAccount").1 =
      Except.error (PyError.attributeError "delete_stack") := by
  refine ⟨by decide, by rfl, by rfl⟩

end LandingZone
